import Mathlib

/-!
Shallow embedding of the token-lifecycle core of the qtrade library
(`qtrade/questrade.py` and `qtrade/utility.py`).

Pure data flow is modelled directly; the mutable `Questrade` instance state
(`self.access_token`, `self.headers`) is threaded explicitly as a `QState`,
the filesystem used by the yaml save/load helpers as a `FileSys` map, and
network traffic as oracle parameters (`HttpResp` inputs, `Request` outputs).
Python exceptions are modelled by `Except QError`.
-/

deriving instance DecidableEq for Except

namespace Qtrade

/-- The five required token fields, in the order in which
`validate_access_token` checks them (utility.py lines 86-95). -/
inductive FieldName
  | access_token
  | api_server
  | expires_in
  | refresh_token
  | token_type
deriving DecidableEq, Repr

/-- Errors raised by the embedded code. `missingField f` models the
`Exception("<field> was not provided.")` raised by `validate_access_token`;
`indexError` models the `IndexError` Python raises for `s[-1]` on an empty
string; `notAuthenticated` models `Exception("Access token not set...")`
in `_send_message`; `fileNotFound` models a failing `open` inside
`get_access_token_yaml`; `httpError s` models `requests.raise_for_status`
on an error status `s`; `attributeError` models reading the never-assigned
`access_token` attribute. -/
inductive QError
  | missingField : FieldName → QError
  | indexError
  | notAuthenticated
  | fileNotFound
  | httpError : Nat → QError
  | attributeError
deriving DecidableEq, Repr

/-- A JSON body returned by the authorization endpoint (or a parsed yaml
payload): each of the five keys may be present or absent, matching the
`Optional` keyword parameters of `validate_access_token`. -/
structure Response where
  access_token : Option String
  api_server : Option String
  expires_in : Option Int
  refresh_token : Option String
  token_type : Option String
deriving DecidableEq, Repr

/-- The complete token record (`TokenDict` in utility.py). -/
structure TokenDict where
  access_token : String
  api_server : String
  expires_in : Int
  refresh_token : String
  token_type : String
deriving DecidableEq, Repr

/-- A complete record viewed as a five-key JSON/yaml payload. -/
def TokenDict.toResponse (t : TokenDict) : Response :=
  ⟨some t.access_token, some t.api_server, some t.expires_in,
    some t.refresh_token, some t.token_type⟩

/-- Extract the complete record from a response in which all five fields
are present. -/
def Response.toToken? : Response → Option TokenDict
  | ⟨some a, some s, some e, some r, some t⟩ => some ⟨a, s, e, r, t⟩
  | _ => none

/-- utility.py `validate_access_token`: check the five fields in a fixed
order and fail on the first one that is `None`. -/
def validate_access_token (r : Response) : Except QError Unit :=
  if r.access_token.isNone then .error (.missingField .access_token)
  else if r.api_server.isNone then .error (.missingField .api_server)
  else if r.expires_in.isNone then .error (.missingField .expires_in)
  else if r.refresh_token.isNone then .error (.missingField .refresh_token)
  else if r.token_type.isNone then .error (.missingField .token_type)
  else .ok ()

/-- The canonical field order used by `validate_access_token`. -/
def fieldOrder : List FieldName :=
  [.access_token, .api_server, .expires_in, .refresh_token, .token_type]

/-- Whether a response carries the given field. -/
def Response.hasField (r : Response) : FieldName → Bool
  | .access_token => r.access_token.isSome
  | .api_server => r.api_server.isSome
  | .expires_in => r.expires_in.isSome
  | .refresh_token => r.refresh_token.isSome
  | .token_type => r.token_type.isSome

/-- The fields missing from a response, in canonical order. -/
def missingFields (r : Response) : List FieldName :=
  fieldOrder.filter fun f => !(r.hasField f)

/-- questrade.py line 145: `api_server.replace("\\", "")` removes every
backslash character. -/
def removeBackslashes (s : String) : String :=
  String.mk (s.toList.filter fun c => c != '\\')

/-- questrade.py lines 146-147: `if s[-1] == "/": s = s[:-1]`. On the empty
string, Python's `s[-1]` raises `IndexError`. -/
def strip_trailing_slash (s : String) : Except QError String :=
  match s.toList.getLast? with
  | none => .error .indexError
  | some c => if c = '/' then .ok (String.mk s.toList.dropLast) else .ok s

/-- The full `api_server` normalization performed by `_get_access_token`
and `refresh_access_token` (lines 144-147 and 204-207): remove every
backslash, then strip one trailing slash if present. -/
def clean_api_server (s : String) : Except QError String :=
  (strip_trailing_slash (removeBackslashes s))

/-- The Authorization header value derived from a token record
(questrade.py lines 150-154): `token_type + " " + access_token`. -/
def auth_header (t : TokenDict) : String :=
  t.token_type ++ " " ++ t.access_token

/-- The mutable state of a `Questrade` instance: `self.access_token`
(`none` models the attribute never having been assigned) and the
Authorization header value shared by `self.headers` and the session
headers (`None` initially, questrade.py line 41). -/
structure QState where
  access_token : Option TokenDict
  headers : Option String
deriving DecidableEq, Repr

/-- The state of a freshly constructed instance before any token is
installed (questrade.py lines 40-41). -/
def initState : QState := ⟨none, none⟩

/-- The filesystem seen by the yaml helpers: a map from paths to parsed
yaml payloads. -/
def FileSys := String → Option Response

/-- An HTTP response from a collaborator, with a status code and a parsed
body. -/
structure HttpResp (γ : Type) where
  status : Nat
  body : γ
deriving DecidableEq, Repr

/-- `requests` `Response.raise_for_status`: raise on a 4xx/5xx status. -/
def raise_for_status {γ : Type} (r : HttpResp γ) : Except QError Unit :=
  if 400 ≤ r.status then .error (.httpError r.status) else .ok ()

/-- An outbound HTTP request issued through the session, recording the
method, the full URL and the `params`/`data`/`json` payloads. -/
structure Request (β : Type) where
  method : String
  url : String
  params : Option β
  data : Option β
  json : Option β
deriving DecidableEq, Repr

/-- utility.py `get_access_token_yaml`: open the file (any failure is
re-raised), parse it, and validate the payload. -/
def get_access_token_yaml (fs : FileSys) (path : String) :
    Except QError TokenDict :=
  match fs path with
  | none => .error .fileNotFound
  | some payload =>
    match validate_access_token payload with
    | .error e => .error e
    | .ok () =>
      match payload.toToken? with
      | some t => .ok t
      -- unreachable: `validate_access_token` succeeded, so all five
      -- fields are present (`toToken_isSome_of_validate_ok`).
      | none => .error (.missingField .access_token)

/-- questrade.py `save_token_to_yaml`: dump `self.access_token` to the
file at `yaml_path`, overwriting it. Reading the never-assigned attribute
would raise `AttributeError`. -/
def save_token_to_yaml (st : QState) (fs : FileSys) (yamlPath : String) :
    FileSys × Except QError Unit :=
  match st.access_token with
  | none => (fs, .error .attributeError)
  | some tok => (fun p => if p = yamlPath then some tok.toResponse else fs p, .ok ())

/-- questrade.py `_send_message` (lines 62-97): if an access token is
installed, build the URL from its `api_server`, issue the request through
the session and raise for an error status; otherwise raise
`Exception("Access token not set...")`. The returned list records the
requests actually sent over the network. -/
def _send_message {β γ : Type} (method endpoint : String)
    (params data jsonBody : Option β) (st : QState) (resp : HttpResp γ) :
    List (Request β) × Except QError γ :=
  match st.access_token with
  | none => ([], .error .notAuthenticated)
  | some tok =>
    let req : Request β :=
      ⟨method, tok.api_server ++ "/v1/" ++ endpoint, params, data, jsonBody⟩
    match raise_for_status resp with
    | .error e => ([req], .error e)
    | .ok () => ([req], .ok resp.body)

/-- Python `str` applied to an `Optional[str]`. -/
def pyStr : Option String → String
  | some s => s
  | none => "None"

/-- questrade.py line 13. -/
def TOKEN_URL : String :=
  "https://login.questrade.com/oauth2/token?grant_type=refresh_token&refresh_token="

/-- The validate-install-normalize-set-headers block shared verbatim by
`_get_access_token` (questrade.py lines 139-156) and
`refresh_access_token` (lines 199-217). The mutation order of the source
is preserved: the raw response is assigned to `self.access_token`
(line 142/202) and its `api_server` is backslash-stripped in place
(line 145/205) before the `[-1]` lookup of line 146/206, which raises
`IndexError` when the stripped string is empty. Returns the state after
the block together with the installed token or the exception raised. -/
def install_token (response : Response) (st : QState) :
    QState × Except QError TokenDict :=
  match validate_access_token response with
  | .error e => (st, .error e)
  | .ok () =>
    match response.toToken? with
    -- unreachable: validation guarantees all five fields are present.
    | none => (st, .error (.missingField .access_token))
    | some tok =>
      let st1 : QState := { st with access_token := some tok }
      let tokF : TokenDict := { tok with api_server := removeBackslashes tok.api_server }
      let st2 : QState := { st1 with access_token := some tokF }
      match strip_trailing_slash tokF.api_server with
      | .error e => (st2, .error e)
      | .ok srv =>
        let tok2 : TokenDict := { tokF with api_server := srv }
        let st3 : QState :=
          { st2 with access_token := some tok2, headers := some (auth_header tok2) }
        (st3, .ok tok2)

/-- The outcome of `_get_access_token`: the instance state and filesystem
after the call, and the returned token or the exception raised. -/
structure AcquireResult where
  state : QState
  fs : FileSys
  result : Except QError TokenDict

/-- questrade.py `_get_access_token` (lines 112-163), with the
authorization-endpoint response supplied as an oracle: raise for an error
status, run the shared install block, and optionally save the token to
`yaml_path`. -/
def _get_access_token (accessCode : Option String) (saveYaml : Bool)
    (yamlPath : String) (fs : FileSys) (httpResp : HttpResp Response)
    (st : QState) : AcquireResult :=
  let _url := TOKEN_URL ++ pyStr accessCode
  match raise_for_status httpResp with
  | .error e => ⟨st, fs, .error e⟩
  | .ok () =>
    match install_token httpResp.body st with
    | (st2, .error e) => ⟨st2, fs, .error e⟩
    | (st3, .ok tok2) =>
      if saveYaml then
        match save_token_to_yaml st3 fs yamlPath with
        | (fs2, .ok ()) => ⟨st3, fs2, .ok tok2⟩
        -- unreachable: st3 carries an installed token.
        | (fs2, .error e) => ⟨st3, fs2, .error e⟩
      else ⟨st3, fs, .ok tok2⟩

/-- The outcome of `refresh_access_token`: the instance state and
filesystem after the call, the token-endpoint URL requested (if the GET
was reached), and the returned token or the exception raised. -/
structure RefreshResult where
  state : QState
  fs : FileSys
  url : Option String
  result : Except QError TokenDict

/-- The source of the old token in `refresh_access_token` (questrade.py
lines 188-191): with `from_yaml=True` it is read from the literal path
`"access_token.yml"` (line 189); otherwise it is the `access_token`
attribute, whose absence raises `AttributeError`. -/
def old_token_source (fromYaml : Bool) (fs : FileSys) (st : QState) :
    Except QError TokenDict :=
  if fromYaml then get_access_token_yaml fs "access_token.yml"
  else
    match st.access_token with
    | some t => .ok t
    | none => .error .attributeError

/-- questrade.py `refresh_access_token` (lines 165-223), with the
authorization-endpoint response supplied as an oracle: resolve the old
token, request the token endpoint with its refresh token, raise for an
error status, run the shared install block, and — only when
`from_yaml=True` — save the new token to the caller-supplied `yaml_path`
(line 221). -/
def refresh_access_token (fromYaml : Bool) (yamlPath : String)
    (fs : FileSys) (httpResp : HttpResp Response) (st : QState) : RefreshResult :=
  match old_token_source fromYaml fs st with
  | .error e => ⟨st, fs, none, .error e⟩
  | .ok oldTok =>
    let url := TOKEN_URL ++ oldTok.refresh_token
    match raise_for_status httpResp with
    | .error e => ⟨st, fs, some url, .error e⟩
    | .ok () =>
      match install_token httpResp.body st with
      | (st2, .error e) => ⟨st2, fs, some url, .error e⟩
      | (st3, .ok tok2) =>
        if fromYaml then
          match save_token_to_yaml st3 fs yamlPath with
          | (fs2, .ok ()) => ⟨st3, fs2, some url, .ok tok2⟩
          -- unreachable: st3 carries an installed token.
          | (fs2, .error e) => ⟨st3, fs2, some url, .error e⟩
        else ⟨st3, fs, some url, .ok tok2⟩

/-- questrade.py `submit_order` (lines 476-515): POST the order directly
through the session to the orders endpoint, raise for status, then POST
the same order a second time through `_send_message` and return only the
second response. -/
def submit_order {β γ : Type} (acctId : Nat) (orderDict : β) (st : QState)
    (resp1 resp2 : HttpResp γ) : List (Request β) × Except QError γ :=
  match st.access_token with
  -- reading the never-assigned attribute raises AttributeError
  | none => ([], .error .attributeError)
  | some tok =>
    let uri := tok.api_server ++ "/v1/accounts/" ++ toString acctId ++ "/orders"
    let req1 : Request β := ⟨"post", uri, none, none, some orderDict⟩
    match raise_for_status resp1 with
    | .error e => ([req1], .error e)
    | .ok () =>
      let sent := _send_message "post" ("accounts/" ++ toString acctId ++ "/orders")
        none none (some orderDict) st resp2
      (req1 :: sent.1, sent.2)

theorem toToken_isSome_of_validate_ok (r : Response)
    (h : validate_access_token r = .ok ()) :
    ∃ t : TokenDict, r.toToken? = some t := by
  obtain ⟨a, s, e, rt, tt⟩ := r
  cases a <;> cases s <;> cases e <;> cases rt <;> cases tt <;>
    simp_all [validate_access_token, Response.toToken?]

theorem validate_eq_of_missing_head (r : Response) (f : FieldName)
    (h : (missingFields r).head? = some f) :
    validate_access_token r = .error (.missingField f) := by
  obtain ⟨a, s, e, rt, tt⟩ := r
  cases a <;> cases s <;> cases e <;> cases rt <;> cases tt <;>
    simp_all [validate_access_token, missingFields, fieldOrder, Response.hasField]

theorem validate_error_shape (r : Response) (e : QError)
    (h : validate_access_token r = .error e) : ∃ f, e = .missingField f := by
  obtain ⟨a, s, e0, rt, tt⟩ := r
  cases a <;> cases s <;> cases e0 <;> cases rt <;> cases tt <;>
    simp_all [validate_access_token] <;> exact ⟨_, h.symm⟩

theorem toToken_some_shape (r : Response) (tok : TokenDict)
    (h : r.toToken? = some tok) : r = tok.toResponse := by
  obtain ⟨a, s, e, rt, tt⟩ := r
  cases a <;> cases s <;> cases e <;> cases rt <;> cases tt <;>
    simp_all [Response.toToken?, TokenDict.toResponse] <;> simp [← h]

theorem validate_ok_of_toToken (r : Response) (tok : TokenDict)
    (h : r.toToken? = some tok) : validate_access_token r = .ok () := by
  obtain ⟨a, s, e, rt, tt⟩ := r
  cases a <;> cases s <;> cases e <;> cases rt <;> cases tt <;>
    simp_all [Response.toToken?, validate_access_token]

theorem strip_trailing_slash_error_shape (s : String) (e : QError)
    (h : strip_trailing_slash s = .error e) : e = .indexError := by
  unfold strip_trailing_slash at h
  split at h
  · injection h with h1
    exact h1.symm
  · split_ifs at h

theorem install_token_validate_error (r : Response) (st : QState) (e : QError)
    (h : validate_access_token r = .error e) :
    install_token r st = (st, .error e) := by
  unfold install_token
  rw [h]

theorem install_token_ok_state (r : Response) (st st2 : QState) (tok : TokenDict)
    (h : install_token r st = (st2, .ok tok)) :
    st2 = ⟨some tok, some (auth_header tok)⟩ := by
  unfold install_token at h
  split at h
  · simp at h
  · split at h
    · simp at h
    · dsimp only at h
      split at h
      · simp at h
      · simp only [Prod.mk.injEq, Except.ok.injEq] at h
        obtain ⟨h1, h2⟩ := h
        subst h2
        exact h1.symm

theorem install_token_error_state (r : Response) (st st2 : QState) (e : QError)
    (h : install_token r st = (st2, .error e)) (hne : e ≠ .indexError) :
    st2 = st := by
  unfold install_token at h
  split at h
  · simp only [Prod.mk.injEq, Except.error.injEq] at h
    exact h.1.symm
  · split at h
    · simp only [Prod.mk.injEq, Except.error.injEq] at h
      exact h.1.symm
    · dsimp only at h
      split at h
      · rename_i hstrip
        simp only [Prod.mk.injEq, Except.error.injEq] at h
        exact absurd (h.2 ▸ strip_trailing_slash_error_shape _ _ hstrip) hne
      · simp at h

theorem install_token_index_state (r : Response) (st st2 : QState) (tok : TokenDict)
    (htok : r.toToken? = some tok)
    (h : install_token r st = (st2, .error .indexError)) :
    st2 = ⟨some { tok with api_server := removeBackslashes tok.api_server },
      st.headers⟩ := by
  unfold install_token at h
  rw [validate_ok_of_toToken r tok htok, htok] at h
  dsimp only at h
  split at h
  · simp only [Prod.mk.injEq, Except.error.injEq] at h
    exact h.1.symm
  · simp at h

theorem install_token_ok_fields (r : Response) (st st2 : QState) (tok : TokenDict)
    (h : install_token r st = (st2, .ok tok)) :
    r.access_token = some tok.access_token ∧
      r.expires_in = some tok.expires_in ∧
      r.refresh_token = some tok.refresh_token ∧
      r.token_type = some tok.token_type := by
  unfold install_token at h
  split at h
  · simp at h
  · split at h
    · simp at h
    · rename_i x tok0 htok0
      dsimp only at h
      split at h
      · simp at h
      · simp only [Prod.mk.injEq, Except.ok.injEq] at h
        obtain ⟨_, h2⟩ := h
        rw [toToken_some_shape r tok0 htok0]
        subst h2
        exact ⟨rfl, rfl, rfl, rfl⟩

theorem install_token_ok_of_fields (a srv rt tt : String) (e : Int) (st : QState)
    (srvN : String)
    (hsrv : strip_trailing_slash (removeBackslashes srv) = .ok srvN) :
    install_token ⟨some a, some srv, some e, some rt, some tt⟩ st =
      (⟨some ⟨a, srvN, e, rt, tt⟩, some (tt ++ " " ++ a)⟩, .ok ⟨a, srvN, e, rt, tt⟩) := by
  have htok : (Response.mk (some a) (some srv) (some e) (some rt) (some tt)).toToken? =
      some ⟨a, srv, e, rt, tt⟩ := rfl
  unfold install_token
  rw [validate_ok_of_toToken _ _ htok, htok]
  dsimp only
  rw [hsrv]
  rfl

theorem filter_ne_backslash_idem (l : List Char) :
    (l.filter fun c => c != '\\').filter (fun c => c != '\\') =
      l.filter fun c => c != '\\' := by
  rw [List.filter_filter]
  apply List.filter_congr
  intro a _
  cases h : (a != '\\') <;> simp [h]

theorem strip_trailing_slash_mk (l : List Char) :
    strip_trailing_slash (String.mk l) =
      match l.getLast? with
      | none => .error .indexError
      | some c =>
          if c = '/' then .ok (String.mk l.dropLast) else .ok (String.mk l) :=
  rfl

theorem string_append_assoc (a b c : String) : a ++ b ++ c = a ++ (b ++ c) := by
  obtain ⟨l1⟩ := a
  obtain ⟨l2⟩ := b
  obtain ⟨l3⟩ := c
  show String.mk (l1 ++ l2 ++ l3) = String.mk (l1 ++ (l2 ++ l3))
  rw [List.append_assoc]

theorem raise_for_status_error_shape {γ : Type} (r : HttpResp γ) (e : QError)
    (h : raise_for_status r = .error e) : e = .httpError r.status := by
  unfold raise_for_status at h
  split_ifs at h
  injection h with h1
  exact h1.symm

theorem raise_for_status_ok {γ : Type} (r : HttpResp γ) (h : r.status < 400) :
    raise_for_status r = .ok () := by
  unfold raise_for_status
  rw [if_neg (Nat.not_le.mpr h)]

theorem get_access_token_transport_error (accessCode : Option String)
    (saveYaml : Bool) (yamlPath : String) (fs : FileSys)
    (httpResp : HttpResp Response) (st : QState) (e : QError)
    (h : raise_for_status httpResp = .error e) :
    _get_access_token accessCode saveYaml yamlPath fs httpResp st = ⟨st, fs, .error e⟩ := by
  unfold _get_access_token
  rw [h]

theorem get_access_token_spec (accessCode : Option String) (saveYaml : Bool)
    (yamlPath : String) (fs : FileSys) (httpResp : HttpResp Response) (st : QState)
    (h : raise_for_status httpResp = .ok ()) :
    (_get_access_token accessCode saveYaml yamlPath fs httpResp st).state =
      (install_token httpResp.body st).1 ∧
    (_get_access_token accessCode saveYaml yamlPath fs httpResp st).result =
      (install_token httpResp.body st).2 := by
  unfold _get_access_token
  rw [h]
  rcases hi : install_token httpResp.body st with ⟨st2, res⟩
  cases res with
  | error e => exact ⟨rfl, rfl⟩
  | ok tok =>
    have hst2 := install_token_ok_state _ _ _ _ hi
    subst hst2
    cases saveYaml
    · exact ⟨rfl, rfl⟩
    · exact ⟨rfl, rfl⟩

theorem refresh_old_error (fromYaml : Bool) (yamlPath : String) (fs : FileSys)
    (httpResp : HttpResp Response) (st : QState) (e : QError)
    (h : old_token_source fromYaml fs st = .error e) :
    refresh_access_token fromYaml yamlPath fs httpResp st = ⟨st, fs, none, .error e⟩ := by
  unfold refresh_access_token
  rw [h]

theorem refresh_transport_error (fromYaml : Bool) (yamlPath : String) (fs : FileSys)
    (httpResp : HttpResp Response) (st : QState) (oldTok : TokenDict) (e : QError)
    (hold : old_token_source fromYaml fs st = .ok oldTok)
    (h : raise_for_status httpResp = .error e) :
    refresh_access_token fromYaml yamlPath fs httpResp st =
      ⟨st, fs, some (TOKEN_URL ++ oldTok.refresh_token), .error e⟩ := by
  unfold refresh_access_token
  rw [hold]
  dsimp only
  rw [h]

theorem refresh_spec (fromYaml : Bool) (yamlPath : String) (fs : FileSys)
    (httpResp : HttpResp Response) (st : QState) (oldTok : TokenDict)
    (hold : old_token_source fromYaml fs st = .ok oldTok)
    (h : raise_for_status httpResp = .ok ()) :
    (refresh_access_token fromYaml yamlPath fs httpResp st).state =
      (install_token httpResp.body st).1 ∧
    (refresh_access_token fromYaml yamlPath fs httpResp st).result =
      (install_token httpResp.body st).2 ∧
    (refresh_access_token fromYaml yamlPath fs httpResp st).url =
      some (TOKEN_URL ++ oldTok.refresh_token) := by
  unfold refresh_access_token
  rw [hold]
  dsimp only
  rw [h]
  rcases hi : install_token httpResp.body st with ⟨st2, res⟩
  cases res with
  | error e => exact ⟨rfl, rfl, rfl⟩
  | ok tok =>
    have hst2 := install_token_ok_state _ _ _ _ hi
    subst hst2
    cases fromYaml
    · exact ⟨rfl, rfl, rfl⟩
    · exact ⟨rfl, rfl, rfl⟩

theorem refresh_spec_yaml (yamlPath : String) (fs : FileSys)
    (httpResp : HttpResp Response) (st : QState) (oldTok : TokenDict)
    (hold : get_access_token_yaml fs "access_token.yml" = .ok oldTok)
    (h : raise_for_status httpResp = .ok ()) (st3 : QState) (tok2 : TokenDict)
    (hi : install_token httpResp.body st = (st3, .ok tok2)) :
    refresh_access_token true yamlPath fs httpResp st =
      ⟨st3, fun p => if p = yamlPath then some tok2.toResponse else fs p,
        some (TOKEN_URL ++ oldTok.refresh_token), .ok tok2⟩ := by
  have hold2 : old_token_source true fs st = .ok oldTok := by
    unfold old_token_source
    rw [if_pos rfl, hold]
  unfold refresh_access_token
  rw [hold2]
  dsimp only
  rw [h, hi]
  have hst3 := install_token_ok_state _ _ _ _ hi
  subst hst3
  rfl

example : clean_api_server "https://api01.iq.questrade.com/" =
    .ok "https://api01.iq.questrade.com" := by decide

example : clean_api_server "https:\\/\\/api.example.com\\/" =
    .ok "https://api.example.com" := by decide

/-- C6 as stated is false: normalization is not idempotent on every string.
On `"a//"` the first application yields `"a/"`, and a second application
strips a further slash, yielding `"a"`. -/
theorem claim_C6_counterexample :
    (clean_api_server "a//").bind clean_api_server ≠
      clean_api_server "a//" := by decide

/-- C6 (amended): the normalization of `_get_access_token` and
`refresh_access_token` (remove all backslashes, then strip one trailing
slash, raising `IndexError` on an empty string) is idempotent on every
string whose backslash-free form is nonempty and, if it ends in a slash,
neither is just `"/"` nor ends in two slashes. -/
theorem claim_C6_amended (s : String)
    (h1 : (removeBackslashes s).toList ≠ [])
    (h2 : (removeBackslashes s).toList.getLast? = some '/' →
      (removeBackslashes s).toList.dropLast ≠ [] ∧
        (removeBackslashes s).toList.dropLast.getLast? ≠ some '/') :
    (clean_api_server s).bind clean_api_server = clean_api_server s := by
  have hrb : removeBackslashes s = String.mk (s.toList.filter fun c => c != '\\') := rfl
  have hrb2 : (removeBackslashes s).toList = s.toList.filter fun c => c != '\\' := rfl
  rw [hrb2] at h1 h2
  have hbind : ∀ x : String,
      (Except.ok (ε := QError) x).bind clean_api_server = clean_api_server x :=
    fun _ => rfl
  show (strip_trailing_slash (removeBackslashes s)).bind clean_api_server =
    strip_trailing_slash (removeBackslashes s)
  rw [hrb, strip_trailing_slash_mk]
  rcases hlast : (s.toList.filter fun c => c != '\\').getLast? with _ | c
  · exact absurd (List.getLast?_eq_none_iff.mp hlast) h1
  · rw [hlast] at h2
    by_cases hc : c = '/'
    · subst hc
      obtain ⟨hne, hnl⟩ := h2 rfl
      show (Except.ok (String.mk (s.toList.filter fun c => c != '\\').dropLast)).bind
          clean_api_server =
        Except.ok (String.mk (s.toList.filter fun c => c != '\\').dropLast)
      rw [hbind]
      show strip_trailing_slash (removeBackslashes
        (String.mk (s.toList.filter fun c => c != '\\').dropLast)) = _
      have hfil : removeBackslashes
          (String.mk (s.toList.filter fun c => c != '\\').dropLast) =
          String.mk (s.toList.filter fun c => c != '\\').dropLast := by
        show String.mk ((s.toList.filter fun c => c != '\\').dropLast.filter
          fun c => c != '\\') = _
        congr 1
        apply List.filter_eq_self.mpr
        intro a ha
        have ha2 : a ∈ s.toList.filter fun c => c != '\\' :=
          (List.dropLast_sublist _).subset ha
        exact List.of_mem_filter (p := fun c => c != '\\') ha2
      rw [hfil, strip_trailing_slash_mk]
      rcases hl2 : (s.toList.filter fun c => c != '\\').dropLast.getLast? with _ | d
      · exact absurd (List.getLast?_eq_none_iff.mp hl2) hne
      · have hd : ¬(d = '/') := fun hdd => hnl (hdd ▸ hl2)
        show (if d = '/'
            then Except.ok (String.mk (s.toList.filter fun c => c != '\\').dropLast.dropLast)
            else Except.ok (String.mk (s.toList.filter fun c => c != '\\').dropLast)) =
          Except.ok (String.mk (s.toList.filter fun c => c != '\\').dropLast)
        rw [if_neg hd]
    · show (if c = '/'
            then Except.ok (String.mk (s.toList.filter fun c => c != '\\').dropLast)
            else Except.ok (String.mk (s.toList.filter fun c => c != '\\'))).bind
          clean_api_server =
        if c = '/'
          then Except.ok (String.mk (s.toList.filter fun c => c != '\\').dropLast)
          else Except.ok (String.mk (s.toList.filter fun c => c != '\\'))
      rw [if_neg hc, hbind]
      show strip_trailing_slash (removeBackslashes
        (String.mk (s.toList.filter fun c => c != '\\'))) = _
      have hfil : removeBackslashes
          (String.mk (s.toList.filter fun c => c != '\\')) =
          String.mk (s.toList.filter fun c => c != '\\') := by
        show String.mk ((s.toList.filter fun c => c != '\\').filter
          fun c => c != '\\') = _
        rw [filter_ne_backslash_idem]
      rw [hfil, strip_trailing_slash_mk, hlast]
      show (if c = '/'
          then Except.ok (String.mk (s.toList.filter fun c => c != '\\').dropLast)
          else Except.ok (String.mk (s.toList.filter fun c => c != '\\'))) =
        Except.ok (String.mk (s.toList.filter fun c => c != '\\'))
      rw [if_neg hc]

/-- C1 fails as stated: on an authorization-endpoint response carrying all
five required fields whose `api_server` is `"\\"`, `_get_access_token`
raises `IndexError` from the trailing-slash check of line 146 instead of
installing the normalized Credential, and no Authorization header is
derived. -/
theorem claim_C1_counterexample :
    (_get_access_token (some "code") false "access_token.yml" (fun _ => none)
        ⟨200, ⟨some "A", some "\\", some 600, some "R", some "Bearer"⟩⟩
        initState).result = .error .indexError ∧
    (_get_access_token (some "code") false "access_token.yml" (fun _ => none)
        ⟨200, ⟨some "A", some "\\", some 600, some "R", some "Bearer"⟩⟩
        initState).state.headers = none :=
  ⟨rfl, rfl⟩

/-- C1 (amended): for every authorization-endpoint response carrying all
five required fields whose `api_server` contains at least one
non-backslash character (so that normalization succeeds, yielding
`srvN`), `_get_access_token` installs a Credential whose `access_token`,
`expires_in`, `refresh_token` and `token_type` exactly equal the response
values and whose `api_server` is the response value with every backslash
removed and one trailing slash (if present) removed, and derives the
Authorization header from it. -/
theorem claim_C1_amended (a srv rt tt : String) (e : Int)
    (accessCode : Option String) (saveYaml : Bool) (yamlPath : String)
    (fs : FileSys) (st : QState) (srvN : String)
    (hsrv : strip_trailing_slash (removeBackslashes srv) = .ok srvN) :
    (_get_access_token accessCode saveYaml yamlPath fs
        ⟨200, ⟨some a, some srv, some e, some rt, some tt⟩⟩ st).result =
      .ok ⟨a, srvN, e, rt, tt⟩ ∧
    (_get_access_token accessCode saveYaml yamlPath fs
        ⟨200, ⟨some a, some srv, some e, some rt, some tt⟩⟩ st).state =
      ⟨some ⟨a, srvN, e, rt, tt⟩, some (tt ++ " " ++ a)⟩ := by
  have hrs : raise_for_status
      (⟨200, ⟨some a, some srv, some e, some rt, some tt⟩⟩ : HttpResp Response) =
      .ok () := rfl
  obtain ⟨h1, h2⟩ := get_access_token_spec accessCode saveYaml yamlPath fs _ st hrs
  have hi := install_token_ok_of_fields a srv rt tt e st srvN hsrv
  refine ⟨?_, ?_⟩
  · rw [h2]
    dsimp only
    rw [hi]
  · rw [h1]
    dsimp only
    rw [hi]

theorem claim_C1_witness :
    strip_trailing_slash (removeBackslashes "https://questrade.api/") =
      .ok "https://questrade.api" ∧
    (_get_access_token (some "hunter2") false "access_token.yml" (fun _ => none)
        ⟨200, ⟨some "hunter2", some "https://questrade.api/", some 1234,
          some "hunter2", some "Bearer"⟩⟩ initState).result =
      .ok ⟨"hunter2", "https://questrade.api", 1234, "hunter2", "Bearer"⟩ :=
  ⟨by decide,
    (claim_C1_amended "hunter2" "https://questrade.api/" "hunter2" "Bearer" 1234
      (some "hunter2") false "access_token.yml" (fun _ => none) initState
      "https://questrade.api" (by decide)).1⟩

/-- C2: when one or more of the five required credential fields is
missing, validation fails naming exactly the first missing field in the
fixed order access_token, api_server, expires_in, refresh_token,
token_type, and the same fail-fast check makes `_get_access_token`
(acquire), `refresh_access_token` (refresh) and `get_access_token_yaml`
(load) fail with that same error. -/
theorem claim_C2 (r : Response) (f : FieldName) (accessCode : Option String)
    (saveYaml : Bool) (yamlPath path : String) (fs fs2 : FileSys) (st : QState)
    (oldTok : TokenDict)
    (hmiss : (missingFields r).head? = some f)
    (hst : st.access_token = some oldTok)
    (hfs : fs2 path = some r) :
    validate_access_token r = .error (.missingField f) ∧
    (_get_access_token accessCode saveYaml yamlPath fs ⟨200, r⟩ st).result =
      .error (.missingField f) ∧
    (refresh_access_token false yamlPath fs ⟨200, r⟩ st).result =
      .error (.missingField f) ∧
    get_access_token_yaml fs2 path = .error (.missingField f) := by
  have hval := validate_eq_of_missing_head r f hmiss
  have hrs : raise_for_status (⟨200, r⟩ : HttpResp Response) = .ok () := rfl
  have hold : old_token_source false fs st = .ok oldTok := by
    unfold old_token_source
    rw [if_neg Bool.false_ne_true, hst]
  refine ⟨hval, ?_, ?_, ?_⟩
  · obtain ⟨_, h2⟩ := get_access_token_spec accessCode saveYaml yamlPath fs _ st hrs
    rw [h2]
    dsimp only
    rw [install_token_validate_error r st _ hval]
  · obtain ⟨_, h2, _⟩ := refresh_spec false yamlPath fs _ st oldTok hold hrs
    rw [h2]
    dsimp only
    rw [install_token_validate_error r st _ hval]
  · unfold get_access_token_yaml
    rw [hfs]
    dsimp only
    rw [hval]

theorem claim_C2_witness :
    validate_access_token ⟨some "a", some "s", some 1, none, none⟩ =
      .error (.missingField .refresh_token) ∧
    (_get_access_token none false "t.yml" (fun _ => none)
        ⟨200, ⟨some "a", some "s", some 1, none, none⟩⟩
        ⟨some ⟨"x", "y", 1, "z", "Bearer"⟩, none⟩).result =
      .error (.missingField .refresh_token) ∧
    (refresh_access_token false "t.yml" (fun _ => none)
        ⟨200, ⟨some "a", some "s", some 1, none, none⟩⟩
        ⟨some ⟨"x", "y", 1, "z", "Bearer"⟩, none⟩).result =
      .error (.missingField .refresh_token) ∧
    get_access_token_yaml
      (fun p => if p = "t.yml" then some ⟨some "a", some "s", some 1, none, none⟩
        else none) "t.yml" =
      .error (.missingField .refresh_token) :=
  claim_C2 ⟨some "a", some "s", some 1, none, none⟩ .refresh_token none false
    "t.yml" "t.yml" (fun _ => none)
    (fun p => if p = "t.yml" then some ⟨some "a", some "s", some 1, none, none⟩
      else none)
    ⟨some ⟨"x", "y", 1, "z", "Bearer"⟩, none⟩ ⟨"x", "y", 1, "z", "Bearer"⟩
    (by decide) rfl (by decide)

/-- C4: calling `_send_message` (dispatch) on a session in which no
Credential has ever been installed fails with the "Access token not
set..." error and issues no network request (the request trace is empty). -/
theorem claim_C4 {β γ : Type} (method endpoint : String)
    (params data jsonBody : Option β) (st : QState) (resp : HttpResp γ)
    (h : st.access_token = none) :
    _send_message method endpoint params data jsonBody st resp =
      ([], .error .notAuthenticated) := by
  unfold _send_message
  rw [h]

theorem claim_C4_witness :
    initState.access_token = none ∧
    _send_message (β := Nat) (γ := Nat) "get" "accounts" none none none
      initState ⟨200, 0⟩ = ([], .error .notAuthenticated) :=
  ⟨rfl, claim_C4 "get" "accounts" none none none initState ⟨200, 0⟩ rfl⟩

/-- C5: for every valid Credential whose `api_server` is already
normalized, saving it with `save_token_to_yaml` and loading the saved
record back with `get_access_token_yaml` yields the identical Credential. -/
theorem claim_C5 (tok : TokenDict) (hdrs : Option String) (fs : FileSys)
    (path : String)
    (hnorm : strip_trailing_slash (removeBackslashes tok.api_server) =
      .ok tok.api_server) :
    (save_token_to_yaml ⟨some tok, hdrs⟩ fs path).2 = .ok () ∧
    get_access_token_yaml (save_token_to_yaml ⟨some tok, hdrs⟩ fs path).1 path =
      .ok tok := by
  have htok : (TokenDict.toResponse tok).toToken? = some tok := rfl
  refine ⟨rfl, ?_⟩
  unfold get_access_token_yaml save_token_to_yaml
  dsimp only
  rw [if_pos rfl]
  dsimp only
  rw [validate_ok_of_toToken _ tok htok, htok]

theorem claim_C5_witness :
    strip_trailing_slash (removeBackslashes "https://questrade.api") =
      .ok "https://questrade.api" ∧
    get_access_token_yaml
      (save_token_to_yaml
        ⟨some ⟨"t", "https://questrade.api", 1234, "r", "Bearer"⟩, none⟩
        (fun _ => none) "access_token.yml").1 "access_token.yml" =
      .ok ⟨"t", "https://questrade.api", 1234, "r", "Bearer"⟩ :=
  ⟨by decide,
    (claim_C5 ⟨"t", "https://questrade.api", 1234, "r", "Bearer"⟩ none
      (fun _ => none) "access_token.yml" (by decide)).2⟩

theorem claim_C6_amended_witness :
    (removeBackslashes "https://q.api/").toList ≠ [] ∧
    ((removeBackslashes "https://q.api/").toList.getLast? = some '/' →
      (removeBackslashes "https://q.api/").toList.dropLast ≠ [] ∧
        (removeBackslashes "https://q.api/").toList.dropLast.getLast? ≠ some '/') ∧
    (clean_api_server "https://q.api/").bind clean_api_server =
      clean_api_server "https://q.api/" :=
  ⟨by decide, by decide,
    claim_C6_amended "https://q.api/" (by decide) (by decide)⟩

theorem get_yaml_error_ne_index (fs : FileSys) (path : String) (e : QError)
    (h : get_access_token_yaml fs path = .error e) : e ≠ .indexError := by
  unfold get_access_token_yaml at h
  split at h
  · injection h with h1
    subst h1
    simp
  · split at h
    · rename_i e0 hval
      injection h with h1
      subst h1
      obtain ⟨f, hf⟩ := validate_error_shape _ _ hval
      subst hf
      simp
    · split at h
      · simp at h
      · injection h with h1
        subst h1
        simp

theorem old_token_source_error_ne_index (fromYaml : Bool) (fs : FileSys)
    (st : QState) (e : QError) (h : old_token_source fromYaml fs st = .error e) :
    e ≠ .indexError := by
  unfold old_token_source at h
  split_ifs at h
  · exact get_yaml_error_ne_index fs "access_token.yml" e h
  · split at h
    · simp at h
    · injection h with h1
      subst h1
      simp

theorem install_token_cases (r : Response) (st : QState) :
    (∀ e, (install_token r st).2 = .error e → e ≠ .indexError →
      (install_token r st).1 = st) ∧
    (∀ tok, (install_token r st).2 = .ok tok →
      (install_token r st).1 = ⟨some tok, some (auth_header tok)⟩) ∧
    (∀ tok, r.toToken? = some tok → (install_token r st).2 = .error .indexError →
      (install_token r st).1 =
        ⟨some { tok with api_server := removeBackslashes tok.api_server },
          st.headers⟩) := by
  rcases hi : install_token r st with ⟨st2, res⟩
  refine ⟨?_, ?_, ?_⟩
  · intro e hr hne
    dsimp only at hr ⊢
    subst hr
    exact install_token_error_state r st st2 e hi hne
  · intro tok hr
    dsimp only at hr ⊢
    subst hr
    exact install_token_ok_state r st st2 tok hi
  · intro tok htok hr
    dsimp only at hr ⊢
    subst hr
    exact install_token_index_state r st st2 tok htok hi

/-- C3 fails as stated: refreshing over an installed credential with a
response whose `api_server` is the empty string raises `IndexError` after
the raw response has already replaced `self.access_token` (line 202),
while the headers keep their old value — the operation fails yet the
state is changed, and credential and headers diverge. -/
theorem claim_C3_counterexample :
    (refresh_access_token false "access_token.yml" (fun _ => none)
        ⟨200, ⟨some "newA", some "", some 600, some "newR", some "Bearer"⟩⟩
        ⟨some ⟨"oldA", "oldS", 1, "oldR", "Bearer"⟩, some "Bearer oldA"⟩).result =
      .error .indexError ∧
    (refresh_access_token false "access_token.yml" (fun _ => none)
        ⟨200, ⟨some "newA", some "", some 600, some "newR", some "Bearer"⟩⟩
        ⟨some ⟨"oldA", "oldS", 1, "oldR", "Bearer"⟩, some "Bearer oldA"⟩).state ≠
      ⟨some ⟨"oldA", "oldS", 1, "oldR", "Bearer"⟩, some "Bearer oldA"⟩ ∧
    (refresh_access_token false "access_token.yml" (fun _ => none)
        ⟨200, ⟨some "newA", some "", some 600, some "newR", some "Bearer"⟩⟩
        ⟨some ⟨"oldA", "oldS", 1, "oldR", "Bearer"⟩, some "Bearer oldA"⟩).state =
      ⟨some ⟨"newA", "", 600, "newR", "Bearer"⟩, some "Bearer oldA"⟩ :=
  ⟨rfl, by decide, rfl⟩

/-- C3 (amended): for `_get_access_token` and `refresh_access_token`, any
failure other than the `IndexError` raised while normalizing an
`api_server` that is empty after backslash removal leaves the session
state exactly as before the call, and a success replaces the credential
and re-derives the header from it in the same step; the `IndexError`
failure, however, leaves the backslash-stripped response credential
installed while the headers keep their prior value. -/
theorem claim_C3_amended (accessCode : Option String) (saveYaml fromYaml : Bool)
    (yamlPath : String) (fs : FileSys) (httpResp : HttpResp Response) (st : QState) :
    (∀ e, (_get_access_token accessCode saveYaml yamlPath fs httpResp st).result =
        .error e → e ≠ .indexError →
      (_get_access_token accessCode saveYaml yamlPath fs httpResp st).state = st) ∧
    (∀ tok, (_get_access_token accessCode saveYaml yamlPath fs httpResp st).result =
        .ok tok →
      (_get_access_token accessCode saveYaml yamlPath fs httpResp st).state =
        ⟨some tok, some (auth_header tok)⟩) ∧
    (∀ tok, httpResp.body.toToken? = some tok →
      (_get_access_token accessCode saveYaml yamlPath fs httpResp st).result =
        .error .indexError →
      (_get_access_token accessCode saveYaml yamlPath fs httpResp st).state =
        ⟨some { tok with api_server := removeBackslashes tok.api_server },
          st.headers⟩) ∧
    (∀ e, (refresh_access_token fromYaml yamlPath fs httpResp st).result =
        .error e → e ≠ .indexError →
      (refresh_access_token fromYaml yamlPath fs httpResp st).state = st) ∧
    (∀ tok, (refresh_access_token fromYaml yamlPath fs httpResp st).result =
        .ok tok →
      (refresh_access_token fromYaml yamlPath fs httpResp st).state =
        ⟨some tok, some (auth_header tok)⟩) ∧
    (∀ tok, httpResp.body.toToken? = some tok →
      (refresh_access_token fromYaml yamlPath fs httpResp st).result =
        .error .indexError →
      (refresh_access_token fromYaml yamlPath fs httpResp st).state =
        ⟨some { tok with api_server := removeBackslashes tok.api_server },
          st.headers⟩) := by
  rcases hrs : raise_for_status httpResp with e0 | u
  · have he0 := raise_for_status_error_shape httpResp e0 hrs
    have hae := get_access_token_transport_error accessCode saveYaml yamlPath fs
      httpResp st e0 hrs
    refine ⟨?_, ?_, ?_, ?_, ?_, ?_⟩
    · intro e hr hne
      rw [hae]
    · intro tok hr
      rw [hae] at hr
      simp at hr
    · intro tok htok hr
      rw [hae] at hr
      dsimp only at hr
      injection hr with hr2
      rw [he0] at hr2
      simp at hr2
    · intro e hr hne
      rcases hold : old_token_source fromYaml fs st with eo | oldTok
      · rw [refresh_old_error fromYaml yamlPath fs httpResp st eo hold]
      · rw [refresh_transport_error fromYaml yamlPath fs httpResp st oldTok e0 hold hrs]
    · intro tok hr
      rcases hold : old_token_source fromYaml fs st with eo | oldTok
      · rw [refresh_old_error fromYaml yamlPath fs httpResp st eo hold] at hr
        simp at hr
      · rw [refresh_transport_error fromYaml yamlPath fs httpResp st oldTok e0 hold hrs] at hr
        simp at hr
    · intro tok htok hr
      rcases hold : old_token_source fromYaml fs st with eo | oldTok
      · rw [refresh_old_error fromYaml yamlPath fs httpResp st eo hold] at hr
        dsimp only at hr
        injection hr with hr2
        exact absurd hr2 (old_token_source_error_ne_index fromYaml fs st eo hold)
      · rw [refresh_transport_error fromYaml yamlPath fs httpResp st oldTok e0 hold hrs] at hr
        dsimp only at hr
        injection hr with hr2
        rw [he0] at hr2
        simp at hr2
  · cases u
    obtain ⟨ha1, ha2⟩ := get_access_token_spec accessCode saveYaml yamlPath fs httpResp st hrs
    obtain ⟨hc1, hc2, hc3⟩ := install_token_cases httpResp.body st
    refine ⟨?_, ?_, ?_, ?_, ?_, ?_⟩
    · intro e hr hne
      rw [ha2] at hr
      rw [ha1]
      exact hc1 e hr hne
    · intro tok hr
      rw [ha2] at hr
      rw [ha1]
      exact hc2 tok hr
    · intro tok htok hr
      rw [ha2] at hr
      rw [ha1]
      exact hc3 tok htok hr
    · intro e hr hne
      rcases hold : old_token_source fromYaml fs st with eo | oldTok
      · rw [refresh_old_error fromYaml yamlPath fs httpResp st eo hold]
      · obtain ⟨hr1, hr2s, _⟩ := refresh_spec fromYaml yamlPath fs httpResp st oldTok hold hrs
        rw [hr2s] at hr
        rw [hr1]
        exact hc1 e hr hne
    · intro tok hr
      rcases hold : old_token_source fromYaml fs st with eo | oldTok
      · rw [refresh_old_error fromYaml yamlPath fs httpResp st eo hold] at hr
        simp at hr
      · obtain ⟨hr1, hr2s, _⟩ := refresh_spec fromYaml yamlPath fs httpResp st oldTok hold hrs
        rw [hr2s] at hr
        rw [hr1]
        exact hc2 tok hr
    · intro tok htok hr
      rcases hold : old_token_source fromYaml fs st with eo | oldTok
      · rw [refresh_old_error fromYaml yamlPath fs httpResp st eo hold] at hr
        dsimp only at hr
        injection hr with hr2
        exact absurd hr2 (old_token_source_error_ne_index fromYaml fs st eo hold)
      · obtain ⟨hr1, hr2s, _⟩ := refresh_spec fromYaml yamlPath fs httpResp st oldTok hold hrs
        rw [hr2s] at hr
        rw [hr1]
        exact hc3 tok htok hr

theorem claim_C3_amended_witness :
    (refresh_access_token false "t.yml" (fun _ => none)
        ⟨200, ⟨some "a", none, none, none, none⟩⟩
        ⟨some ⟨"oldA", "oldS", 1, "oldR", "Bearer"⟩, some "Bearer oldA"⟩).state =
      ⟨some ⟨"oldA", "oldS", 1, "oldR", "Bearer"⟩, some "Bearer oldA"⟩ ∧
    (refresh_access_token false "t.yml" (fun _ => none)
        ⟨200, ⟨some "newA", some "srv", some 9, some "newR", some "Bearer"⟩⟩
        ⟨some ⟨"oldA", "oldS", 1, "oldR", "Bearer"⟩, some "Bearer oldA"⟩).state =
      ⟨some ⟨"newA", "srv", 9, "newR", "Bearer"⟩,
        some (auth_header ⟨"newA", "srv", 9, "newR", "Bearer"⟩)⟩ :=
  ⟨(claim_C3_amended none false false "t.yml" (fun _ => none)
      ⟨200, ⟨some "a", none, none, none, none⟩⟩
      ⟨some ⟨"oldA", "oldS", 1, "oldR", "Bearer"⟩, some "Bearer oldA"⟩).2.2.2.1
      (.missingField .api_server) rfl (by decide),
   (claim_C3_amended none false false "t.yml" (fun _ => none)
      ⟨200, ⟨some "newA", some "srv", some 9, some "newR", some "Bearer"⟩⟩
      ⟨some ⟨"oldA", "oldS", 1, "oldR", "Bearer"⟩, some "Bearer oldA"⟩).2.2.2.2.1
      ⟨"newA", "srv", 9, "newR", "Bearer"⟩ rfl⟩

/-- C7 fails as stated: a record whose `access_token`, `refresh_token`
and `token_type` are present but empty passes validation, is installed by
`_get_access_token`, and its empty fields are used to build the
Authorization header (which becomes `" "`). -/
theorem claim_C7_counterexample :
    validate_access_token ⟨some "", some "x", some 0, some "", some ""⟩ = .ok () ∧
    (_get_access_token (some "c") false "access_token.yml" (fun _ => none)
        ⟨200, ⟨some "", some "x", some 0, some "", some ""⟩⟩ initState).result =
      .ok ⟨"", "x", 0, "", ""⟩ ∧
    (_get_access_token (some "c") false "access_token.yml" (fun _ => none)
        ⟨200, ⟨some "", some "x", some 0, some "", some ""⟩⟩ initState).state.headers =
      some " " :=
  ⟨rfl, rfl, rfl⟩

/-- C7 (amended): validation accepts a credential record exactly when all
five fields are present (not `None`), regardless of whether any present
field is empty; an empty-but-present field is accepted and subsequently
used to build the Authorization header. -/
theorem claim_C7_amended (r : Response) :
    validate_access_token r = .ok () ↔
      (r.access_token.isSome ∧ r.api_server.isSome ∧ r.expires_in.isSome ∧
        r.refresh_token.isSome ∧ r.token_type.isSome) := by
  obtain ⟨a, s, e, rt, tt⟩ := r
  cases a <;> cases s <;> cases e <;> cases rt <;> cases tt <;>
    simp [validate_access_token]

/-- C8: after every successful `refresh_access_token`, the stored
Authorization header equals `token_type + " " + access_token` of the
newly installed Credential, whose token pair comes from the refresh
response itself — never from the prior Credential. -/
theorem claim_C8 (fromYaml : Bool) (yamlPath : String) (fs : FileSys)
    (httpResp : HttpResp Response) (st : QState) (tok : TokenDict)
    (h : (refresh_access_token fromYaml yamlPath fs httpResp st).result = .ok tok) :
    (refresh_access_token fromYaml yamlPath fs httpResp st).state.headers =
      some (tok.token_type ++ " " ++ tok.access_token) ∧
    httpResp.body.access_token = some tok.access_token ∧
    httpResp.body.token_type = some tok.token_type := by
  rcases hold : old_token_source fromYaml fs st with e | oldTok
  · rw [refresh_old_error fromYaml yamlPath fs httpResp st e hold] at h
    simp at h
  · rcases hrs : raise_for_status httpResp with e0 | u
    · rw [refresh_transport_error fromYaml yamlPath fs httpResp st oldTok e0 hold hrs] at h
      simp at h
    · cases u
      obtain ⟨hstate, hres, _⟩ := refresh_spec fromYaml yamlPath fs httpResp st oldTok hold hrs
      rw [hres] at h
      rcases hi : install_token httpResp.body st with ⟨st2, res⟩
      rw [hi] at h
      dsimp only at h
      subst h
      obtain ⟨hf1, _, _, hf4⟩ := install_token_ok_fields _ _ _ _ hi
      have hst2 := install_token_ok_state _ _ _ _ hi
      refine ⟨?_, hf1, hf4⟩
      rw [hstate, hi]
      dsimp only
      rw [hst2]
      rfl

theorem claim_C8_witness :
    (refresh_access_token false "t.yml" (fun _ => none)
        ⟨200, ⟨some "newA", some "https://q.api/", some 99, some "newR", some "Bearer"⟩⟩
        ⟨some ⟨"oldA", "oldS", 1, "oldR", "OldType"⟩, some "OldType oldA"⟩).state.headers =
      some ("Bearer" ++ " " ++ "newA") :=
  (claim_C8 false "t.yml" (fun _ => none)
    ⟨200, ⟨some "newA", some "https://q.api/", some 99, some "newR", some "Bearer"⟩⟩
    ⟨some ⟨"oldA", "oldS", 1, "oldR", "OldType"⟩, some "OldType oldA"⟩
    ⟨"newA", "https://q.api", 99, "newR", "Bearer"⟩ rfl).1

/-- C9: `refresh_access_token` with `from_yaml=True` reads the old
credential — and the refresh token placed in the token-endpoint URL —
from the fixed path `"access_token.yml"` regardless of the `yaml_path`
argument (in particular it fails with the file-not-found error when that
fixed path is absent, whatever `yaml_path` holds), while on success it
saves the new credential to the caller-supplied `yaml_path` and leaves
every other path untouched. -/
theorem claim_C9 (yamlPath p : String) (fs fs2 : FileSys)
    (httpResp : HttpResp Response) (st st3 : QState) (oldTok tok2 : TokenDict)
    (hold : get_access_token_yaml fs "access_token.yml" = .ok oldTok)
    (hrs : raise_for_status httpResp = .ok ())
    (hi : install_token httpResp.body st = (st3, .ok tok2))
    (hp : p ≠ yamlPath)
    (hmiss : fs2 "access_token.yml" = none) :
    (refresh_access_token true yamlPath fs httpResp st).url =
      some (TOKEN_URL ++ oldTok.refresh_token) ∧
    (refresh_access_token true yamlPath fs httpResp st).result = .ok tok2 ∧
    (refresh_access_token true yamlPath fs httpResp st).fs yamlPath =
      some tok2.toResponse ∧
    (refresh_access_token true yamlPath fs httpResp st).fs p = fs p ∧
    refresh_access_token true yamlPath fs2 httpResp st =
      ⟨st, fs2, none, .error .fileNotFound⟩ := by
  have hspec := refresh_spec_yaml yamlPath fs httpResp st oldTok hold hrs st3 tok2 hi
  rw [hspec]
  have hold2 : old_token_source true fs2 st = .error .fileNotFound := by
    unfold old_token_source get_access_token_yaml
    rw [if_pos rfl, hmiss]
  refine ⟨rfl, rfl, ?_, ?_, refresh_old_error true yamlPath fs2 httpResp st _ hold2⟩
  · dsimp only
    rw [if_pos rfl]
  · dsimp only
    rw [if_neg hp]

theorem claim_C9_witness :
    (refresh_access_token true "out.yml"
        (fun q => if q = "access_token.yml"
          then some ⟨some "oA", some "oS", some 11, some "oR", some "Bearer"⟩
          else none)
        ⟨200, ⟨some "nA", some "nS", some 22, some "nR", some "Bearer"⟩⟩
        initState).url = some (TOKEN_URL ++ "oR") ∧
    (refresh_access_token true "out.yml"
        (fun q => if q = "access_token.yml"
          then some ⟨some "oA", some "oS", some 11, some "oR", some "Bearer"⟩
          else none)
        ⟨200, ⟨some "nA", some "nS", some 22, some "nR", some "Bearer"⟩⟩
        initState).fs "out.yml" =
      some ⟨some "nA", some "nS", some 22, some "nR", some "Bearer"⟩ ∧
    refresh_access_token true "out.yml"
        (fun q => if q = "out.yml"
          then some ⟨some "oA", some "oS", some 11, some "oR", some "Bearer"⟩
          else none)
        ⟨200, ⟨some "nA", some "nS", some 22, some "nR", some "Bearer"⟩⟩
        initState =
      ⟨initState,
        fun q => if q = "out.yml"
          then some ⟨some "oA", some "oS", some 11, some "oR", some "Bearer"⟩
          else none,
        none, .error .fileNotFound⟩ := by
  obtain ⟨h1, _, h3, _, h5⟩ := claim_C9 "out.yml" "other.yml"
    (fun q => if q = "access_token.yml"
      then some ⟨some "oA", some "oS", some 11, some "oR", some "Bearer"⟩
      else none)
    (fun q => if q = "out.yml"
      then some ⟨some "oA", some "oS", some 11, some "oR", some "Bearer"⟩
      else none)
    ⟨200, ⟨some "nA", some "nS", some 22, some "nR", some "Bearer"⟩⟩
    initState ⟨some ⟨"nA", "nS", 22, "nR", "Bearer"⟩, some "Bearer nA"⟩
    ⟨"oA", "oS", 11, "oR", "Bearer"⟩ ⟨"nA", "nS", 22, "nR", "Bearer"⟩
    rfl rfl rfl (by decide) rfl
  exact ⟨h1, h3, h5⟩

/-- C10: with a credential installed and both responses successful,
`submit_order` sends the order-submission POST twice — once directly
through the session and once through `_send_message` — to the same orders
endpoint with the same payload, and returns only the second response. -/
theorem claim_C10 {β γ : Type} (acctId : Nat) (orderDict : β) (st : QState)
    (tok : TokenDict) (resp1 resp2 : HttpResp γ)
    (hst : st.access_token = some tok)
    (h1 : resp1.status < 400) (h2 : resp2.status < 400) :
    submit_order acctId orderDict st resp1 resp2 =
      ([⟨"post", tok.api_server ++ "/v1/accounts/" ++ toString acctId ++ "/orders",
          none, none, some orderDict⟩,
        ⟨"post", tok.api_server ++ "/v1/accounts/" ++ toString acctId ++ "/orders",
          none, none, some orderDict⟩],
        .ok resp2.body) := by
  have hlit : ("/v1/" : String) ++ "accounts/" = "/v1/accounts/" := rfl
  have hurl : tok.api_server ++ "/v1/" ++ ("accounts/" ++ toString acctId ++ "/orders") =
      tok.api_server ++ "/v1/accounts/" ++ toString acctId ++ "/orders" := by
    simp only [← string_append_assoc]
    rw [string_append_assoc tok.api_server "/v1/" "accounts/", hlit]
  unfold submit_order _send_message
  rw [hst]
  dsimp only
  rw [raise_for_status_ok resp1 h1, raise_for_status_ok resp2 h2]
  dsimp only
  rw [hurl]

theorem claim_C10_witness :
    submit_order (β := Nat) (γ := Nat) 123 5
      ⟨some ⟨"A", "S", 1, "R", "Bearer"⟩, some "Bearer A"⟩ ⟨200, 7⟩ ⟨204, 8⟩ =
      ([⟨"post", "S/v1/accounts/123/orders", none, none, some 5⟩,
        ⟨"post", "S/v1/accounts/123/orders", none, none, some 5⟩], .ok 8) :=
  claim_C10 123 5 ⟨some ⟨"A", "S", 1, "R", "Bearer"⟩, some "Bearer A"⟩
    ⟨"A", "S", 1, "R", "Bearer"⟩ ⟨200, 7⟩ ⟨204, 8⟩ rfl (by decide) (by decide)

end Qtrade
